import Mathlib

/-!
Verification development for the `MatrixHttpApi` content-upload client
(`src/http-api/index.ts`): a shallow embedding of `uploadContent`,
`cancelUpload`, the in-flight upload registry and the self-renewing
30-second stall timeout, together with theorems settling the frozen
claims about the natural-language specification.

Modelling conventions:
 - JavaScript strings and numbers become `String` and `Nat`.
 - `undefined`-able values become `Option`; JS truthiness of an optional
   string (`undefined`, `null` and the empty string are falsy) is `jsTruthy`.
 - The platform function `JSON.parse` is an external collaborator: it is
   passed around as an explicit parameter `parseJson : String → Option Json`
   (`none` models a thrown SyntaxError).
 - The single-threaded event-driven runtime is modelled by a state machine:
   each event handler of the source runs atomically on an `UploadState`, and
   an execution is a list of timed events folded over the state.  The armed
   stall timeout is part of the state (the absolute time at which the armed
   callback fires); before an event at time `t` is handled, a due timer
   callback fires first, mirroring the event loop.  `xhr.abort()` only
   instructs the transport to stop: its terminal DONE report (status 0)
   arrives, if at all, as a later trace event, matching the behaviour the
   repository's own unit tests mock.
 - The promise returned by `utils.defer` settles at most once; a second
   `resolve`/`reject` is a no-op.  The `.finally` cleanup registered on it
   is run at the settlement transition.
-/

/-- Model of a JavaScript JSON value (the result of the platform's
`JSON.parse`). -/
inductive Json where
  | jnull : Json
  | jbool : Bool → Json
  | jnum : Int → Json
  | jstr : String → Json
  | jobj : List (String × Json) → Json

/-- Model of the JavaScript error values that flow through `uploadContent`:
plain `Error`s, `DOMException`s (carrying their `name`), a `SyntaxError`
thrown by `JSON.parse`, the `ConnectionError` wrapper from
`./errors` and the classified remote error produced by
`parseErrorResponse`. -/
inductive JsError where
  | plainError : String → JsError
  | parseError : String → JsError
  | domException : String → String → JsError
  | connectionError : String → JsError → JsError
  | matrixError : Nat → String → JsError

/-- The `name` property of a JavaScript error value. -/
def errName : JsError → String
  | .plainError _ => "Error"
  | .parseError _ => "SyntaxError"
  | .domException _ n => n
  | .connectionError _ _ => "ConnectionError"
  | .matrixError _ _ => "MatrixError"

/-- The value an upload's completion promise can resolve to. -/
inductive UploadResult where
  | parsed : Json → UploadResult
  | raw : String → UploadResult
  | contentUri : Json → UploadResult

/-- A settlement of the completion promise: fulfilled or rejected. -/
inductive Settlement where
  | success : UploadResult → Settlement
  | failure : JsError → Settlement

/-- JS truthiness of an optional string: `undefined` and `""` are falsy. -/
def jsTruthy : Option String → Bool
  | none => false
  | some s => !(s == "")

/-- `opts.includeFilename ?? true` (line 72). -/
def resolvedIncludeFilename (o : Option Bool) : Bool := o.getD true

/-- `opts.name ?? (file as File).name` (line 77): nullish coalescing. -/
def resolvedFileName (optsName fileDeclaredName : Option String) : Option String :=
  match optsName with
  | some s => some s
  | none => fileDeclaredName

/-- `opts.type ?? (file as File).type ?? 'application/octet-stream'`
(line 76): nullish coalescing chain. -/
def resolvedContentType (optsType fileDeclaredType : Option String) : String :=
  match optsType with
  | some t => t
  | none =>
    match fileDeclaredType with
    | some t => t
    | none => "application/octet-stream"

/-- Modelled from the spec: `parseErrorResponse` lives in
`src/http-api/utils.ts`, which is not among the provided sources.  Per the
spec it classifies a response with status ≥ 400 into a remote error that
carries the status code and the (structured or raw) error body; no claim
depends on its internal structure, so the model keeps the status and the
raw body. -/
def parseErrorResponse (status : Nat) (body : String) : JsError :=
  .matrixError status body

/-- The `try` block of the XHR DONE handler (lines 101-113): status 0
throws an abort `DOMException`, an empty body throws
`Error("No response body.")`, status ≥ 400 rejects with the classified
remote error, otherwise the body is JSON-parsed (a parse failure throws)
and resolved. -/
def xhrDoneTry (parseJson : String → Option Json) (status : Nat)
    (statusText responseText : String) : Except JsError Settlement :=
  if status = 0 then
    .error (.domException statusText "AbortError")
  else if responseText == "" then
    .error (.plainError "No response body.")
  else if 400 ≤ status then
    .ok (.failure (parseErrorResponse status responseText))
  else
    match parseJson responseText with
    | some v => .ok (.success (.parsed v))
    | none => .error (.parseError "Unexpected token")

/-- The full XHR DONE handler (lines 101-120): the `catch` clause forwards
an error whose `name` is `"AbortError"` unchanged and wraps every other
thrown error as `ConnectionError("request failed", err)`. -/
def xhrDone (parseJson : String → Option Json) (status : Nat)
    (statusText responseText : String) : Settlement :=
  match xhrDoneTry parseJson status statusText responseText with
  | .ok s => s
  | .error err =>
    if errName err == "AbortError" then .failure err
    else .failure (.connectionError "request failed" err)

/-- The settlement computed by `uploadContent`'s XHR DONE handler, as a
function of the upload options.  The options record is in scope at the
resolution site in the source, but the handler reads none of
`opts.rawResponse` / `opts.onlyContentUri`: on success it always resolves
the JSON-parsed body (line 112). -/
structure UploadOpts where
  name : Option String
  includeFilename : Option Bool
  optType : Option String
  rawResponse : Option Bool
  onlyContentUri : Option Bool

/-- The settlement the XHR branch of `uploadContent` produces at DONE, for
given options.  Faithful to the source: `opts` is unused. -/
def uploadContentXhrSettlement (_opts : UploadOpts)
    (parseJson : String → Option Json) (status : Nat)
    (statusText responseText : String) : Settlement :=
  xhrDone parseJson status statusText responseText

/-- Modelled from the spec: the three-way result policy the spec (and the
source's own doc comment, lines 54-69) states for the resolved value:
`rawResponse=true` → raw body; else `onlyContentUri=true` → the content
locator only; else the parsed JSON body. -/
def specThreeWayResult (rawResponse onlyContentUri : Bool) (rawBody : String)
    (parsedBody contentUriField : Json) : UploadResult :=
  if rawResponse then .raw rawBody
  else if onlyContentUri then .contentUri contentUriField
  else .parsed parsedBody

/-- The rejection value the DONE handler produces for a response with an
empty body (its `catch` of `Error("No response body.")`). -/
def noResponseBodyError : JsError :=
  .connectionError "request failed" (.plainError "No response body.")

/-- The error classifier's own output kinds (`ConnectionError` wrappers and
classified remote errors). -/
def isClassifiedError : JsError → Bool
  | .connectionError _ _ => true
  | .matrixError _ _ => true
  | _ => false

/-- The `ConnectionError` wrapper test (used to state that abort
recognition takes precedence over generic-exception wrapping). -/
def isConnectionError : JsError → Bool
  | .connectionError _ _ => true
  | _ => false

/-- The timeout supervisor's rejection value, `new Error("Timeout")`
(line 91). -/
def isTimeoutError : JsError → Bool
  | .plainError m => m == "Timeout"
  | _ => false

/-- Every settlement kind the code can produce: success, a classifier
output, an abort-named error, or the timeout error. -/
def settlementKindOk : Settlement → Bool
  | .success _ => true
  | .failure e => isClassifiedError e || (errName e == "AbortError") || isTimeoutError e

/-- Modelled from the spec: the three settlement kinds the spec enumerates
for the completion future — success, a classified error, or an abort
error (recognised by the `AbortError` name marker). -/
def specSettlementKind3 : Settlement → Bool
  | .success _ => true
  | .failure e => isClassifiedError e || (errName e == "AbortError")

/-- The mutable state of one `uploadContent` call after its synchronous
body has run, together with ghost fields for the proofs.

Fields mirroring the source:
 - `defer`: the settlement state of the `utils.defer` promise (`none` while
   pending; a promise settles at most once).
 - `timer`: the armed stall-timeout callback, as the absolute time at which
   it fires (line 95 arms it, line 100/126 clear it, line 129 rearms it).
 - `loaded`, `total`: the progress fields of the `Upload` record
   (lines 80-81, mutated at lines 127-128).
 - `xhrAborted`: whether `xhr.abort()` has been called.
 - `signalAborted`: the `AbortController` signal's aborted flag; its abort
   event fires listeners only on the `false → true` transition, so
   listeners attached after the signal already fired never run.
 - `regCount`: how many entries for this upload the shared `uploads` array
   holds (`push` at line 183; `utils.removeElement`, which removes at most
   one matching element, at lines 177 and 180).
 - `finallyDone`: whether the `.finally` cleanup of line 176 has run.

Ghost fields (observers, never read by the transition functions):
 - `settleCount`: number of pending→settled transitions of `defer`.
 - `timedOut`: whether the timeout callback `timeoutFn` has fired. -/
structure UploadState where
  defer : Option Settlement
  timer : Option Nat
  loaded : Nat
  total : Nat
  xhrAborted : Bool
  signalAborted : Bool
  regCount : Nat
  finallyDone : Bool
  settleCount : Nat
  timedOut : Bool

/-- `utils.removeElement(this.uploads, elem => elem === upload)`: removes
the first matching entry if one is present. -/
def removeUploadElement (s : UploadState) : UploadState :=
  { s with regCount := s.regCount - 1 }

/-- The `.finally` cleanup of line 176: runs once, at settlement, and
removes the upload from the registry. -/
def runFinallyCleanup (s : UploadState) : UploadState :=
  if s.finallyDone then s
  else { (removeUploadElement s) with finallyDone := true }

/-- Settle the deferred promise: a no-op when it is already settled,
otherwise records the settlement (incrementing the ghost counter) and runs
the `.finally` cleanup. -/
def settleWith (s : UploadState) (v : Settlement) : UploadState :=
  match s.defer with
  | some _ => s
  | none => runFinallyCleanup { s with defer := some v, settleCount := s.settleCount + 1 }

/-- `timeoutFn` (lines 89-92): `xhr.abort(); defer.reject(new Error("Timeout"))`. -/
def timeoutFn (s : UploadState) : UploadState :=
  settleWith { s with xhrAborted := true, timedOut := true }
    (.failure (.plainError "Timeout"))

/-- The event loop runs a due timer callback before handling an event at
time `t`; firing consumes the timer (`timeoutFn` never rearms it). -/
def fireTimerIfDue (s : UploadState) (t : Nat) : UploadState :=
  match s.timer with
  | some d => if d ≤ t then timeoutFn { s with timer := none } else s
  | none => s

/-- `xhr.upload.onprogress` (lines 125-134): clears the stall timer,
updates `loaded`/`total` on the handle, rearms the timer for 30000 ms from
the tick, and invokes the caller's progress callback (no effect on this
state). -/
def onProgressTick (s : UploadState) (t ld tot : Nat) : UploadState :=
  { s with timer := some (t + 30000), loaded := ld, total := tot }

/-- `xhr.onreadystatechange` at `DONE` (lines 97-123): clears the stall
timer and settles the promise with the classified outcome. -/
def onXhrDone (parseJson : String → Option Json) (s : UploadState)
    (status : Nat) (statusText responseText : String) : UploadState :=
  settleWith { s with timer := none } (xhrDone parseJson status statusText responseText)

/-- Firing the `AbortController` signal.  A signal fires its abort event
only once (`abort()` on an already-aborted signal is a no-op); on the
transition the two listeners run in registration order:
line 153 `xhr.abort()`, then line 179 `removeElement` followed by
`defer.reject(new DOMException("Aborted", "AbortError"))`. -/
def fireAbortSignal (s : UploadState) : UploadState :=
  if s.signalAborted then s
  else
    settleWith (removeUploadElement { s with signalAborted := true, xhrAborted := true })
      (.failure (.domException "Aborted" "AbortError"))

/-- `cancelUpload` (lines 187-194): finds the upload whose completion
promise matches the caller's reference (for the modelled upload: it is
still in the registry), and if found fires its `AbortController` and
returns `true`; otherwise returns `false`. -/
def cancelUpload (s : UploadState) : Bool × UploadState :=
  if s.regCount ≠ 0 then (true, fireAbortSignal s) else (false, s)

/-- A timed event delivered to one upload's handlers by the event loop. -/
inductive UploadEvent where
  | progress : Nat → Nat → Nat → UploadEvent
  | done : Nat → Nat → String → String → UploadEvent
  | cancel : Nat → UploadEvent
  | abortSignal : Nat → UploadEvent

/-- One event-loop step: fire a due timer first, then run the handler. -/
def step (parseJson : String → Option Json) (s : UploadState) :
    UploadEvent → UploadState
  | .progress t ld tot => onProgressTick (fireTimerIfDue s t) t ld tot
  | .done t status statusText responseText =>
    onXhrDone parseJson (fireTimerIfDue s t) status statusText responseText
  | .cancel t => (cancelUpload (fireTimerIfDue s t)).2
  | .abortSignal t => fireAbortSignal (fireTimerIfDue s t)

/-- Run a list of events. -/
def runTrace (parseJson : String → Option Json) :
    UploadState → List UploadEvent → UploadState
  | s, [] => s
  | s, e :: evs => runTrace parseJson (step parseJson s e) evs

/-- Observe the state at time `t` with no further events: a due timer
still fires. -/
def observeAt (s : UploadState) (t : Nat) : UploadState :=
  fireTimerIfDue s t

/-- The state right after the synchronous body of `uploadContent` returns,
for the XHR strategy: promise pending, stall timer armed for 30000 ms from
the call time `t0` (line 95), `loaded = total = 0` (lines 80-81), payload
sent, exactly one registry entry pushed (line 183).  `preAborted` is the
state of the caller-supplied `AbortController` signal at call time. -/
def initUploadState (t0 : Nat) (preAborted : Bool) : UploadState :=
  { defer := none, timer := some (t0 + 30000), loaded := 0, total := 0,
    xhrAborted := false, signalAborted := preAborted, regCount := 1,
    finallyDone := false, settleCount := 0, timedOut := false }

/-- A running (pending) state with the stall timer armed at `a`, used to
characterise the machine along progress-only traces. -/
def runningState (a ld tot : Nat) : UploadState :=
  { defer := none, timer := some (a + 30000), loaded := ld, total := tot,
    xhrAborted := false, signalAborted := false, regCount := 1,
    finallyDone := false, settleCount := 0, timedOut := false }

/-- The observable synchronous effects of `uploadContent`'s body, in
program order. -/
inductive SyncEffect where
  | newXhr | armStallTimer | installDoneHandler | installProgressHandler
  | buildUrl | setFilenameParam | setAccessTokenParam | xhrOpen
  | setAuthorizationHeader | setContentTypeHeader | xhrSend
  | addXhrAbortListener | delegatedAuthedRequest
  | installFinallyCleanup | addRejectAbortListener | pushUpload
deriving BEq, DecidableEq, Repr

/-- The strategy-specific synchronous effects (lines 86-173): the XHR
branch builds the request (filename and `access_token` query parameters
per lines 138-144, the `Authorization` header per lines 147-149), sends
the payload (line 151) and attaches the `xhr.abort` listener (line 153);
the fallback branch issues the delegated `authedRequest` (line 164). -/
def uploadContentStrategyEffects (hasXhr includeFilename : Bool)
    (fileName : Option String) (useAuthorizationHeader : Bool)
    (accessToken : Option String) : List SyncEffect :=
  if hasXhr then
    [.newXhr, .armStallTimer, .installDoneHandler, .installProgressHandler, .buildUrl]
    ++ (if includeFilename && jsTruthy fileName then [.setFilenameParam] else [])
    ++ (if !useAuthorizationHeader && jsTruthy accessToken then [.setAccessTokenParam] else [])
    ++ [.xhrOpen]
    ++ (if useAuthorizationHeader && jsTruthy accessToken then [.setAuthorizationHeader] else [])
    ++ [.setContentTypeHeader, .xhrSend, .addXhrAbortListener]
  else
    [.delegatedAuthedRequest]

/-- All synchronous effects of `uploadContent` in program order: the
strategy effects, then (lines 176-183) the `.finally` cleanup, the
abort-reject listener, and — last — the `push` onto the registry. -/
def uploadContentSyncEffects (hasXhr includeFilename : Bool)
    (fileName : Option String) (useAuthorizationHeader : Bool)
    (accessToken : Option String) : List SyncEffect :=
  uploadContentStrategyEffects hasXhr includeFilename fileName
      useAuthorizationHeader accessToken
    ++ [.installFinallyCleanup, .addRejectAbortListener, .pushUpload]

/-- Index of the first occurrence of an effect in an effect list. -/
def effectIndex (e : SyncEffect) (l : List SyncEffect) : Nat :=
  l.findIdx (fun x => x == e)

/-- The request the XHR strategy assembles (lines 136-151): optional
percent-encoded `filename` query parameter, the access credential as
either the `access_token` query parameter or the `Authorization` header,
and the `Content-Type` header.  `encodeURIComponent` is the platform
encoder, passed as a parameter. -/
structure XhrRequest where
  filenameParam : Option String
  accessTokenParam : Option String
  authorizationHeader : Option String
  contentTypeHeader : String

/-- Assembles the XHR request exactly as lines 136-151 do. -/
def buildXhrRequest (encodeURIComponent : String → String)
    (useAuthorizationHeader : Bool) (accessToken : Option String)
    (includeFilename : Bool) (fileName : Option String)
    (contentType : String) : XhrRequest :=
  { filenameParam :=
      if includeFilename && jsTruthy fileName
      then some (encodeURIComponent (fileName.getD "")) else none,
    accessTokenParam :=
      if !useAuthorizationHeader && jsTruthy accessToken
      then some (encodeURIComponent (accessToken.getD "")) else none,
    authorizationHeader :=
      if useAuthorizationHeader && jsTruthy accessToken
      then some ("Bearer " ++ accessToken.getD "") else none,
    contentTypeHeader := contentType }

/-- The resolution of the delegated (non-XHR) strategy (lines 170-172):
`this.opts.onlyData ? response : response.json()` — and nothing else; this
branch, too, never consults `opts.rawResponse` or `opts.onlyContentUri`. -/
def delegatedResolution (_opts : UploadOpts) (onlyData : Bool)
    (parsedBody responseJson : Json) : UploadResult :=
  if onlyData then .parsed parsedBody else .parsed responseJson

/-- Spacing discipline on a list of timed progress ticks
`(time, loaded, total)`: starting from arm time `a`, each tick arrives at
or after the previous arm time and strictly within 30000 ms of it. -/
def wellSpaced : Nat → List (Nat × Nat × Nat) → Bool
  | _, [] => true
  | a, (t, _, _) :: rest => decide (a ≤ t) && decide (t < a + 30000) && wellSpaced t rest

/-- The progress events of a list of timed ticks. -/
def progressTrace : List (Nat × Nat × Nat) → List UploadEvent
  | [] => []
  | (t, ld, tot) :: rest => .progress t ld tot :: progressTrace rest

/-- The time of the last tick (the call time `a` when there is none). -/
def lastTickTime (a : Nat) : List (Nat × Nat × Nat) → Nat
  | [] => a
  | (t, _, _) :: rest => lastTickTime t rest

/-- The `loaded` value of the last tick (default `ld`). -/
def lastTickLoaded (ld : Nat) : List (Nat × Nat × Nat) → Nat
  | [] => ld
  | (_, l, _) :: rest => lastTickLoaded l rest

/-- The `total` value of the last tick (default `tot`). -/
def lastTickTotal (tot : Nat) : List (Nat × Nat × Nat) → Nat
  | [] => tot
  | (_, _, x) :: rest => lastTickTotal x rest

/-- The machine invariant tying the promise state, the `.finally` cleanup,
the registry count and the settlement kind together. -/
def MachineInv (s : UploadState) : Prop :=
  s.settleCount = (if s.defer.isSome then 1 else 0) ∧
  s.finallyDone = s.defer.isSome ∧
  s.regCount = (if s.defer.isSome then 0 else 1) ∧
  ∀ v, s.defer = some v → settlementKindOk v = true

/-- A concrete successful upload response body,
`\x7b"content_uri":"mxc://example.org/abc"\x7d`, used as evaluation input. -/
def sampleBody : String := "\x7b\"content_uri\":\"mxc://example.org/abc\"\x7d"

/-- The JSON value `JSON.parse(sampleBody)` yields. -/
def sampleJson : Json := .jobj [("content_uri", .jstr "mxc://example.org/abc")]

/-- A concrete platform `JSON.parse` for evaluation: parses `sampleBody`
to `sampleJson` and fails on everything else. -/
def sampleParseJson : String → Option Json :=
  fun s => if s == sampleBody then some sampleJson else none

/-- The shape of an `UploadResult`, as a tag. -/
def uploadResultKind : UploadResult → String
  | .parsed _ => "parsed"
  | .raw _ => "raw"
  | .contentUri _ => "contentUri"

theorem xhrDone_kindOk (pj : String → Option Json) (status : Nat)
    (statusText responseText : String) :
    settlementKindOk (xhrDone pj status statusText responseText) = true := by
  unfold xhrDone xhrDoneTry
  by_cases h0 : status = 0
  · simp [h0, errName, settlementKindOk]
  · by_cases hb : (responseText == "") = true
    · simp [h0, hb, errName, settlementKindOk, isClassifiedError]
    · by_cases h4 : 400 ≤ status
      · simp [h0, hb, h4, parseErrorResponse, settlementKindOk, isClassifiedError]
      · cases hpj : pj responseText <;>
          simp [h0, hb, h4, hpj, errName, settlementKindOk, isClassifiedError]

theorem machineInv_settleWith (s : UploadState) (v : Settlement)
    (h : MachineInv s) (hv : settlementKindOk v = true) :
    MachineInv (settleWith s v) := by
  obtain ⟨h1, h2, h3, h4⟩ := h
  cases hd : s.defer with
  | some w =>
    have heq : settleWith s v = s := by simp [settleWith, hd]
    rw [heq]
    exact ⟨h1, h2, h3, h4⟩
  | none =>
    rw [hd] at h1 h2 h3
    simp at h1 h2 h3
    have heq : settleWith s v =
        { s with defer := some v, settleCount := s.settleCount + 1,
                 regCount := s.regCount - 1, finallyDone := true } := by
      simp [settleWith, hd, runFinallyCleanup, removeUploadElement, h2]
    rw [heq]
    refine ⟨by simp [h1], by simp, by simp [h3], ?_⟩
    intro w hw
    simp only [Option.some.injEq] at hw
    simpa [← hw] using hv

theorem machineInv_timeoutFn (s : UploadState) (h : MachineInv s) :
    MachineInv (timeoutFn s) :=
  machineInv_settleWith _ _ h rfl

theorem machineInv_fireTimerIfDue (s : UploadState) (t : Nat)
    (h : MachineInv s) : MachineInv (fireTimerIfDue s t) := by
  unfold fireTimerIfDue
  cases s.timer with
  | none => exact h
  | some d =>
    by_cases hd : d ≤ t
    · simp only [hd, if_true]
      exact machineInv_timeoutFn _ h
    · simp only [hd, if_false]
      exact h

theorem machineInv_onProgressTick (s : UploadState) (t ld tot : Nat)
    (h : MachineInv s) : MachineInv (onProgressTick s t ld tot) := h

theorem machineInv_onXhrDone (pj : String → Option Json) (s : UploadState)
    (status : Nat) (statusText responseText : String) (h : MachineInv s) :
    MachineInv (onXhrDone pj s status statusText responseText) :=
  machineInv_settleWith _ _ h (xhrDone_kindOk pj status statusText responseText)

theorem machineInv_fireAbortSignal (s : UploadState) (h : MachineInv s) :
    MachineInv (fireAbortSignal s) := by
  obtain ⟨h1, h2, h3, h4⟩ := h
  by_cases ha : s.signalAborted = true
  · have heq : fireAbortSignal s = s := by simp [fireAbortSignal, ha]
    rw [heq]
    exact ⟨h1, h2, h3, h4⟩
  · cases hd : s.defer with
    | some w =>
      rw [hd] at h1 h2 h3
      simp at h1 h2 h3
      have heq : fireAbortSignal s =
          { s with signalAborted := true, xhrAborted := true,
                   regCount := s.regCount - 1 } := by
        simp [fireAbortSignal, ha, settleWith, removeUploadElement, hd]
      rw [heq]
      refine ⟨by simp [hd, h1], by simp [hd, h2], by simp [hd, h3], ?_⟩
      intro v hv
      rw [hd] at hv
      simp only [Option.some.injEq] at hv
      exact hv ▸ h4 w hd
    | none =>
      rw [hd] at h1 h2 h3
      simp at h1 h2 h3
      have heq : fireAbortSignal s =
          { s with signalAborted := true, xhrAborted := true,
                   regCount := s.regCount - 1 - 1,
                   defer := some (.failure (.domException "Aborted" "AbortError")),
                   settleCount := s.settleCount + 1, finallyDone := true } := by
        simp [fireAbortSignal, ha, settleWith, removeUploadElement, hd,
              runFinallyCleanup, h2]
      rw [heq]
      refine ⟨by simp [h1], by simp, by simp [h3], ?_⟩
      intro w hw
      simp only [Option.some.injEq] at hw
      simp [← hw, settlementKindOk, errName]

theorem machineInv_cancelUpload (s : UploadState) (h : MachineInv s) :
    MachineInv (cancelUpload s).2 := by
  unfold cancelUpload
  by_cases hr : s.regCount ≠ 0
  · rw [if_pos hr]
    exact machineInv_fireAbortSignal _ h
  · rw [if_neg hr]
    exact h

theorem machineInv_step (pj : String → Option Json) (s : UploadState)
    (e : UploadEvent) (h : MachineInv s) : MachineInv (step pj s e) := by
  cases e with
  | progress t ld tot =>
    exact machineInv_onProgressTick _ t ld tot (machineInv_fireTimerIfDue s t h)
  | done t status statusText responseText =>
    exact machineInv_onXhrDone pj _ status statusText responseText
      (machineInv_fireTimerIfDue s t h)
  | cancel t => exact machineInv_cancelUpload _ (machineInv_fireTimerIfDue s t h)
  | abortSignal t => exact machineInv_fireAbortSignal _ (machineInv_fireTimerIfDue s t h)

theorem machineInv_runTrace (pj : String → Option Json)
    (evs : List UploadEvent) : ∀ s : UploadState, MachineInv s →
    MachineInv (runTrace pj s evs) := by
  induction evs with
  | nil => intro s h; exact h
  | cons e evs ih =>
    intro s h
    exact ih _ (machineInv_step pj s e h)

theorem machineInv_observeAt (s : UploadState) (t : Nat) (h : MachineInv s) :
    MachineInv (observeAt s t) :=
  machineInv_fireTimerIfDue s t h

theorem machineInv_init (t0 : Nat) (preAborted : Bool) :
    MachineInv (initUploadState t0 preAborted) := by
  refine ⟨rfl, rfl, rfl, ?_⟩
  intro v hv
  simp [initUploadState] at hv

theorem fireTimerIfDue_none (s : UploadState) (t : Nat) (hs : s.timer = none) :
    fireTimerIfDue s t = s := by
  simp [fireTimerIfDue, hs]

theorem fireTimerIfDue_not_due (s : UploadState) (t d : Nat)
    (hs : s.timer = some d) (hd : ¬ d ≤ t) : fireTimerIfDue s t = s := by
  simp [fireTimerIfDue, hs, hd]

theorem fireTimerIfDue_due (s : UploadState) (t d : Nat)
    (hs : s.timer = some d) (hd : d ≤ t) :
    fireTimerIfDue s t = timeoutFn { s with timer := none } := by
  simp [fireTimerIfDue, hs, hd]

theorem cancelUpload_found (s : UploadState) (h : s.regCount ≠ 0) :
    cancelUpload s = (true, fireAbortSignal s) := by
  simp [cancelUpload, h]

theorem cancelUpload_missing (s : UploadState) (h : s.regCount = 0) :
    cancelUpload s = (false, s) := by
  simp [cancelUpload, h]

theorem settleWith_defer_stable (s : UploadState) (v w : Settlement)
    (h : s.defer = some w) : (settleWith s v).defer = some w := by
  simp [settleWith, h]

theorem timeoutFn_defer_stable (s : UploadState) (w : Settlement)
    (h : s.defer = some w) : (timeoutFn s).defer = some w :=
  settleWith_defer_stable _ _ _ h

theorem fireTimerIfDue_defer_stable (s : UploadState) (t : Nat) (w : Settlement)
    (h : s.defer = some w) : (fireTimerIfDue s t).defer = some w := by
  cases hs : s.timer with
  | none =>
    rw [fireTimerIfDue_none s t hs]
    exact h
  | some d =>
    by_cases hd : d ≤ t
    · rw [fireTimerIfDue_due s t d hs hd]
      exact timeoutFn_defer_stable _ _ h
    · rw [fireTimerIfDue_not_due s t d hs hd]
      exact h

theorem fireAbortSignal_defer_stable (s : UploadState) (w : Settlement)
    (h : s.defer = some w) : (fireAbortSignal s).defer = some w := by
  by_cases ha : s.signalAborted = true
  · simp [fireAbortSignal, ha, h]
  · simp only [fireAbortSignal, ha, if_false, Bool.false_eq_true]
    exact settleWith_defer_stable _ _ _ h

theorem step_defer_stable (pj : String → Option Json) (s : UploadState)
    (e : UploadEvent) (w : Settlement) (h : s.defer = some w) :
    (step pj s e).defer = some w := by
  cases e with
  | progress t ld tot => exact fireTimerIfDue_defer_stable s t w h
  | done t status statusText responseText =>
    exact settleWith_defer_stable _ _ _ (fireTimerIfDue_defer_stable s t w h)
  | cancel t =>
    show ((cancelUpload (fireTimerIfDue s t)).2).defer = some w
    by_cases hr : (fireTimerIfDue s t).regCount ≠ 0
    · rw [cancelUpload_found _ hr]
      exact fireAbortSignal_defer_stable _ _ (fireTimerIfDue_defer_stable s t w h)
    · rw [cancelUpload_missing _ (by omega)]
      exact fireTimerIfDue_defer_stable s t w h
  | abortSignal t =>
    exact fireAbortSignal_defer_stable _ _ (fireTimerIfDue_defer_stable s t w h)

theorem runTrace_defer_stable (pj : String → Option Json)
    (evs : List UploadEvent) : ∀ (s : UploadState) (w : Settlement),
    s.defer = some w → (runTrace pj s evs).defer = some w := by
  induction evs with
  | nil => intro s w h; exact h
  | cons e evs ih =>
    intro s w h
    exact ih _ w (step_defer_stable pj s e w h)

theorem observeAt_defer_stable (s : UploadState) (t : Nat) (w : Settlement)
    (h : s.defer = some w) : (observeAt s t).defer = some w :=
  fireTimerIfDue_defer_stable s t w h

theorem runTrace_progress (pj : String → Option Json) :
    ∀ (ticks : List (Nat × Nat × Nat)) (a ld tot : Nat),
    wellSpaced a ticks = true →
    runTrace pj (runningState a ld tot) (progressTrace ticks)
      = runningState (lastTickTime a ticks) (lastTickLoaded ld ticks)
          (lastTickTotal tot ticks) := by
  intro ticks
  induction ticks with
  | nil => intro a ld tot _; rfl
  | cons hd rest ih =>
    obtain ⟨t, l, x⟩ := hd
    intro a ld tot h
    simp only [wellSpaced, Bool.and_eq_true, decide_eq_true_eq] at h
    obtain ⟨⟨h1, h2⟩, h3⟩ := h
    have hfire : fireTimerIfDue (runningState a ld tot) t = runningState a ld tot :=
      fireTimerIfDue_not_due _ _ _ rfl (by omega)
    have hstep : step pj (runningState a ld tot) (.progress t l x)
        = runningState t l x := by
      show onProgressTick (fireTimerIfDue (runningState a ld tot) t) t l x
          = runningState t l x
      rw [hfire]
      rfl
    show runTrace pj (step pj (runningState a ld tot) (.progress t l x))
        (progressTrace rest) = _
    rw [hstep]
    exact ih t l x h3

/-- C1: the claim says the resolved value is selected by the three-way
policy (rawResponse → raw body; else onlyContentUri → content locator;
else parsed body).  The source's own doc comment (lines 54-69) documents
exactly this policy, but the code never reads `opts.rawResponse` or
`opts.onlyContentUri`: at the failing input — a successful status-200
response carrying `sampleBody` with `rawResponse = true` — the XHR DONE
handler resolves the JSON-parsed body, where the documented policy demands
the raw body string; flipping the two option flags cannot change the
outcome.  The code contradicts its own documentation: a code bug. -/
theorem c1_result_policy_ignored_code_bug :
    uploadContentXhrSettlement
        { name := none, includeFilename := none, optType := none,
          rawResponse := some true, onlyContentUri := some false }
        sampleParseJson 200 "OK" sampleBody
      = .success (.parsed sampleJson) ∧
    uploadContentXhrSettlement
        { name := none, includeFilename := none, optType := none,
          rawResponse := some false, onlyContentUri := some true }
        sampleParseJson 200 "OK" sampleBody
      = .success (.parsed sampleJson) ∧
    specThreeWayResult true false sampleBody sampleJson
        (.jstr "mxc://example.org/abc")
      = .raw sampleBody ∧
    specThreeWayResult false true sampleBody sampleJson
        (.jstr "mxc://example.org/abc")
      = .contentUri (.jstr "mxc://example.org/abc") ∧
    uploadResultKind (.parsed sampleJson) = "parsed" ∧
    uploadResultKind (.raw sampleBody) = "raw" :=
  ⟨rfl, rfl, rfl, rfl, rfl, rfl⟩

/-- C6: confirmed — for every response with a success status (nonzero,
below 400) and an empty body, the DONE handler rejects with the
protocol-error rejection for a missing body: the `ConnectionError`
wrapper around `Error("No response body.")`.  It never resolves (the
settlement is a `failure`) and never throws out of the handler (the
classifier is total). -/
theorem c6_empty_body_rejects (pj : String → Option Json) (status : Nat)
    (statusText : String) (h0 : status ≠ 0) (_h4 : status < 400) :
    xhrDone pj status statusText "" = .failure noResponseBodyError ∧
    isClassifiedError noResponseBodyError = true ∧
    errName noResponseBodyError = "ConnectionError" := by
  refine ⟨?_, rfl, rfl⟩
  simp [xhrDone, xhrDoneTry, h0, errName, noResponseBodyError]

/-- C6 witness: the empty-body rejection evaluated at status 200. -/
theorem c6_empty_body_rejects_witness :
    xhrDone sampleParseJson 200 "OK" "" = .failure noResponseBodyError :=
  (c6_empty_body_rejects sampleParseJson 200 "OK" (by decide) (by decide)).1

/-- C7: confirmed — a terminal transport state with status zero always
rejects with the abort `DOMException` (name `"AbortError"`), whatever the
body and whether or not any cancellation was requested, and the abort
recognition in the catch clause takes precedence over wrapping into a
generic `ConnectionError`; delivered to a pending upload (armed timer not
yet due), it settles the completion future with exactly that error. -/
theorem c7_status_zero_aborts (pj : String → Option Json) (t0 t : Nat)
    (statusText responseText : String) (h : t < t0 + 30000) :
    xhrDone pj 0 statusText responseText
      = .failure (.domException statusText "AbortError") ∧
    errName (.domException statusText "AbortError") = "AbortError" ∧
    isConnectionError (.domException statusText "AbortError") = false ∧
    (step pj (initUploadState t0 false) (.done t 0 statusText responseText)).defer
      = some (.failure (.domException statusText "AbortError")) := by
  have hclass : xhrDone pj 0 statusText responseText
      = .failure (.domException statusText "AbortError") := by
    simp [xhrDone, xhrDoneTry, errName]
  refine ⟨hclass, rfl, rfl, ?_⟩
  have hfire : fireTimerIfDue (initUploadState t0 false) t
      = initUploadState t0 false :=
    fireTimerIfDue_not_due _ _ _ rfl (by omega)
  show (onXhrDone pj (fireTimerIfDue (initUploadState t0 false) t)
      0 statusText responseText).defer = _
  rw [hfire]
  show (settleWith { initUploadState t0 false with timer := none }
      (xhrDone pj 0 statusText responseText)).defer = _
  rw [hclass]
  rfl

/-- C7 witness: a status-zero report at time 5 on a fresh upload. -/
theorem c7_status_zero_aborts_witness :
    (step sampleParseJson (initUploadState 0 false) (.done 5 0 "" "")).defer
      = some (.failure (.domException "" "AbortError")) :=
  (c7_status_zero_aborts sampleParseJson 0 5 "" "" (by decide)).2.2.2

/-- C8: confirmed — the request carries the access credential in exactly
one of the two mutually exclusive forms, selected by
`opts.useAuthorizationHeader`: never both, and — when a (truthy)
credential is configured — never neither: the `Authorization` header is
present exactly when the flag is set, the `access_token` query parameter
exactly when it is not. -/
theorem c8_credential_exclusive (enc : String → String) (useAuth : Bool)
    (tok : Option String) (inc : Bool) (fn : Option String) (ct : String) :
    ((buildXhrRequest enc useAuth tok inc fn ct).accessTokenParam.isSome &&
      (buildXhrRequest enc useAuth tok inc fn ct).authorizationHeader.isSome)
      = false ∧
    (jsTruthy tok = true →
      (buildXhrRequest enc useAuth tok inc fn ct).accessTokenParam.isSome
        = !useAuth ∧
      (buildXhrRequest enc useAuth tok inc fn ct).authorizationHeader.isSome
        = useAuth) := by
  cases useAuth <;> cases htok : jsTruthy tok <;>
    simp [buildXhrRequest, htok]

/-- C8 witness: with a configured token, header mode yields exactly the
`Authorization` header, query mode exactly the `access_token` parameter. -/
theorem c8_credential_exclusive_witness :
    (buildXhrRequest (fun s => s) true (some "secret") true (some "f") "text/plain").authorizationHeader.isSome = true ∧
    (buildXhrRequest (fun s => s) true (some "secret") true (some "f") "text/plain").accessTokenParam.isSome = false ∧
    (buildXhrRequest (fun s => s) false (some "secret") true (some "f") "text/plain").accessTokenParam.isSome = true ∧
    (buildXhrRequest (fun s => s) false (some "secret") true (some "f") "text/plain").authorizationHeader.isSome = false := by
  have h1 := (c8_credential_exclusive (fun s => s) true (some "secret") true
    (some "f") "text/plain").2 (by decide)
  have h2 := (c8_credential_exclusive (fun s => s) false (some "secret") true
    (some "f") "text/plain").2 (by decide)
  exact ⟨h1.2, by simpa using h1.1, by simpa using h2.1, h2.2⟩

/-- C9: confirmed — the content type resolution is the nullish-coalescing
chain `opts.type ?? file.type ?? "application/octet-stream"`: taken from
options when given, else from the payload's declared type, else the
generic binary default; it is a total function, so it never fails. -/
theorem c9_content_type_resolution (t : String) (f : Option String) :
    resolvedContentType (some t) f = t ∧
    resolvedContentType none (some t) = t ∧
    resolvedContentType none none = "application/octet-stream" :=
  ⟨rfl, rfl, rfl⟩

/-- C2 counterexample: in the synchronous body of `uploadContent` the
payload send strictly precedes the registry push, refuting "pushed onto
the registry before any network activity begins (before the payload is
sent)": at a concrete configuration the index of `xhr.send` (XHR branch)
and of the delegated `authedRequest` (fallback branch) is strictly below
the index of the `push`. -/
theorem c2_send_precedes_push :
    effectIndex .xhrSend
        (uploadContentSyncEffects true true (some "cat.png") false (some "token"))
      < effectIndex .pushUpload
        (uploadContentSyncEffects true true (some "cat.png") false (some "token")) ∧
    effectIndex .delegatedAuthedRequest
        (uploadContentSyncEffects false true (some "cat.png") false (some "token"))
      < effectIndex .pushUpload
        (uploadContentSyncEffects false true (some "cat.png") false (some "token")) := by
  decide

/-- C2 (amended): exactly one handle is pushed per call — synchronously,
as the last effect of the call body, hence before the call returns and
before any settlement, though after the payload send is initiated — and
settlement removes exactly that one entry on every settlement path, so the
registry count for the upload returns to its pre-call value (0) exactly
when the completion promise settles, with no duplicate registration and no
leaked entry (while unsettled the entry is still registered). -/
theorem c2_registry_balanced (hasXhr includeFilename : Bool)
    (fileName : Option String) (useAuth : Bool) (accessToken : Option String)
    (pj : String → Option Json) (t0 : Nat) (preAborted : Bool)
    (evs : List UploadEvent) (endT : Nat) :
    (uploadContentSyncEffects hasXhr includeFilename fileName useAuth accessToken).count
        .pushUpload = 1 ∧
    uploadContentSyncEffects hasXhr includeFilename fileName useAuth accessToken
      = uploadContentStrategyEffects hasXhr includeFilename fileName useAuth accessToken
        ++ [.installFinallyCleanup, .addRejectAbortListener, .pushUpload] ∧
    ((observeAt (runTrace pj (initUploadState t0 preAborted) evs) endT).defer.isSome = true →
      (observeAt (runTrace pj (initUploadState t0 preAborted) evs) endT).regCount = 0) ∧
    ((observeAt (runTrace pj (initUploadState t0 preAborted) evs) endT).defer = none →
      (observeAt (runTrace pj (initUploadState t0 preAborted) evs) endT).regCount = 1) := by
  have hinv := machineInv_observeAt _ endT
    (machineInv_runTrace pj evs _ (machineInv_init t0 preAborted))
  obtain ⟨_, _, h3, _⟩ := hinv
  refine ⟨?_, rfl, ?_, ?_⟩
  · unfold uploadContentSyncEffects uploadContentStrategyEffects
    cases hasXhr
    · rfl
    · split_ifs <;> rfl
  · intro hs
    rw [h3, hs]
    rfl
  · intro hs
    rw [h3, hs]
    rfl

/-- C2 witness: a settled trace leaves the registry count at 0; the
effect-count facts at a concrete configuration. -/
theorem c2_registry_balanced_witness :
    (observeAt (runTrace sampleParseJson (initUploadState 0 false)
        [UploadEvent.done 5 200 "OK" sampleBody]) 6).regCount = 0 ∧
    (uploadContentSyncEffects true true (some "a.png") false (some "tok")).count
        SyncEffect.pushUpload = 1 := by
  have h := c2_registry_balanced true true (some "a.png") false (some "tok")
    sampleParseJson 0 false [UploadEvent.done 5 200 "OK" sampleBody] 6
  exact ⟨h.2.2.1 rfl, h.1⟩

/-- C3 counterexample: a 30-second silence settles the completion future
with the timeout rejection `Error("Timeout")` — a real settlement path
whose value is neither a success, nor a classifier output
(`ConnectionError`/remote error), nor an abort-named error, refuting the
claim's three-way enumeration (while it is one of the code's four
settlement kinds). -/
theorem c3_timeout_outside_three_kinds :
    (observeAt (runTrace sampleParseJson (initUploadState 0 false) []) 30000).defer
      = some (.failure (.plainError "Timeout")) ∧
    specSettlementKind3 (.failure (.plainError "Timeout")) = false ∧
    settlementKindOk (.failure (.plainError "Timeout")) = true :=
  ⟨rfl, rfl, rfl⟩

/-- C3 (amended): along every event trace the completion future settles at
most once — exactly once as soon as it is settled at all (the ghost
`settleCount` counts pending→settled transitions) — every settlement is
one of: success, a classified error, an abort error, or the timeout error
`Error("Timeout")`; and once settled the value never changes, no matter
what further settlement triggers fire. -/
theorem c3_settles_exactly_once (pj : String → Option Json) (t0 : Nat)
    (preAborted : Bool) (evs : List UploadEvent) (endT : Nat) :
    (observeAt (runTrace pj (initUploadState t0 preAborted) evs) endT).settleCount ≤ 1 ∧
    ((observeAt (runTrace pj (initUploadState t0 preAborted) evs) endT).defer.isSome = true ↔
      (observeAt (runTrace pj (initUploadState t0 preAborted) evs) endT).settleCount = 1) ∧
    (∀ v, (observeAt (runTrace pj (initUploadState t0 preAborted) evs) endT).defer = some v →
      settlementKindOk v = true) ∧
    (∀ v evs2 endT2,
      (observeAt (runTrace pj (initUploadState t0 preAborted) evs) endT).defer = some v →
      (observeAt (runTrace pj
          (observeAt (runTrace pj (initUploadState t0 preAborted) evs) endT) evs2) endT2).defer
        = some v) := by
  have hinv := machineInv_observeAt _ endT
    (machineInv_runTrace pj evs _ (machineInv_init t0 preAborted))
  obtain ⟨h1, _, _, h4⟩ := hinv
  refine ⟨?_, ?_, h4, ?_⟩
  · rw [h1]
    split <;> omega
  · rw [h1]
    cases hd : (observeAt (runTrace pj (initUploadState t0 preAborted) evs) endT).defer <;>
      simp [hd]
  · intro v evs2 endT2 hv
    exact observeAt_defer_stable _ endT2 v (runTrace_defer_stable pj evs2 _ v hv)

/-- C3 witness: a caller abort racing the transport's own status-zero
report settles once, with the abort error, and the later trigger cannot
change it. -/
theorem c3_settles_exactly_once_witness :
    settlementKindOk (.failure (.domException "Aborted" "AbortError")) = true ∧
    (observeAt (runTrace sampleParseJson
        (observeAt (runTrace sampleParseJson (initUploadState 0 false)
          [UploadEvent.cancel 1]) 2)
        [UploadEvent.done 3 0 "" ""]) 4).defer
      = some (.failure (.domException "Aborted" "AbortError")) := by
  have h := c3_settles_exactly_once sampleParseJson 0 false [UploadEvent.cancel 1] 2
  exact ⟨h.2.2.1 (.failure (.domException "Aborted" "AbortError")) rfl,
    h.2.2.2 (.failure (.domException "Aborted" "AbortError"))
      [UploadEvent.done 3 0 "" ""] 4 rfl⟩

theorem settleWith_defer_pending (s : UploadState) (v : Settlement)
    (h : s.defer = none) : (settleWith s v).defer = some v := by
  simp only [settleWith, h]
  unfold runFinallyCleanup
  split <;> rfl

/-- C4 counterexample: an in-flight upload whose caller-supplied
`AbortController` was already aborted at call time (its listeners were
attached after the signal fired and never run): `cancelUpload` finds the
handle and returns `true`, yet the state is unchanged — the completion
future does not reject and the handle is not removed. -/
theorem c4_preaborted_cancel_returns_true_but_noop :
    (cancelUpload (initUploadState 0 true)).1 = true ∧
    (cancelUpload (initUploadState 0 true)).2 = initUploadState 0 true :=
  ⟨rfl, rfl⟩

/-- C4 (amended): for an in-flight upload whose abort signal has not
already fired (pending promise, registered handle, signal not aborted,
cleanup not yet run), `cancelUpload` returns `true`, rejects the
completion future with the abort `DOMException("Aborted", "AbortError")`
and removes the handle from the registry; calling it again on the
resulting state — or with any reference matching no registered handle —
returns `false` without any effect (and, being a total function, without
throwing). -/
theorem c4_cancel_inflight (s : UploadState)
    (hpend : s.defer = none) (hreg : s.regCount = 1)
    (hsig : s.signalAborted = false) (hfin : s.finallyDone = false) :
    (cancelUpload s).1 = true ∧
    (cancelUpload s).2.defer
      = some (.failure (.domException "Aborted" "AbortError")) ∧
    (cancelUpload s).2.regCount = 0 ∧
    cancelUpload (cancelUpload s).2 = (false, (cancelUpload s).2) ∧
    (∀ s2 : UploadState, s2.regCount = 0 → cancelUpload s2 = (false, s2)) := by
  have habort : fireAbortSignal s =
      { s with signalAborted := true, xhrAborted := true,
               regCount := s.regCount - 1 - 1,
               defer := some (.failure (.domException "Aborted" "AbortError")),
               settleCount := s.settleCount + 1, finallyDone := true } := by
    simp [fireAbortSignal, hsig, settleWith, removeUploadElement, hpend,
          runFinallyCleanup, hfin]
  have hfound : cancelUpload s = (true, fireAbortSignal s) :=
    cancelUpload_found s (by omega)
  refine ⟨by rw [hfound], ?_, ?_, ?_, ?_⟩
  · rw [hfound, habort]
  · rw [hfound, habort]
    simp [hreg]
  · rw [hfound, habort]
    exact cancelUpload_missing _ (by simp [hreg])
  · intro s2 h2
    exact cancelUpload_missing s2 h2

/-- C4 witness: cancelling a fresh in-flight upload. -/
theorem c4_cancel_inflight_witness :
    (cancelUpload (initUploadState 3 false)).1 = true ∧
    (cancelUpload (initUploadState 3 false)).2.defer
      = some (.failure (.domException "Aborted" "AbortError")) ∧
    (cancelUpload (initUploadState 3 false)).2.regCount = 0 ∧
    cancelUpload (cancelUpload (initUploadState 3 false)).2
      = (false, (cancelUpload (initUploadState 3 false)).2) := by
  have h := c4_cancel_inflight (initUploadState 3 false) rfl rfl rfl rfl
  exact ⟨h.1, h.2.1, h.2.2.1, h.2.2.2.1⟩

/-- C5: confirmed — the 30-second stall deadline is armed at start
(`timer = some (t0 + 30000)`); a well-spaced progress-tick trace (each
tick strictly within 30 s of the previous arming, e.g. every 29 s) leaves
the machine running with the deadline rearmed for 30 s from the last tick
and never fires the timeout, while silence of at least 30 s after the
last tick (or after start when there are no ticks) fires the supervisor:
it aborts the transfer (`xhr.abort()`) and settles the completion future
with the timeout rejection `Error("Timeout")`. -/
theorem c5_stall_timeout (pj : String → Option Json) (t0 : Nat)
    (ticks : List (Nat × Nat × Nat)) (h : wellSpaced t0 ticks = true) :
    (initUploadState t0 false).timer = some (t0 + 30000) ∧
    runTrace pj (initUploadState t0 false) (progressTrace ticks)
      = runningState (lastTickTime t0 ticks) (lastTickLoaded 0 ticks)
          (lastTickTotal 0 ticks) ∧
    (runningState (lastTickTime t0 ticks) (lastTickLoaded 0 ticks)
        (lastTickTotal 0 ticks)).timer
      = some (lastTickTime t0 ticks + 30000) ∧
    (∀ endT, endT < lastTickTime t0 ticks + 30000 →
      (observeAt (runTrace pj (initUploadState t0 false) (progressTrace ticks))
          endT).timedOut = false ∧
      (observeAt (runTrace pj (initUploadState t0 false) (progressTrace ticks))
          endT).defer = none) ∧
    (∀ endT, lastTickTime t0 ticks + 30000 ≤ endT →
      (observeAt (runTrace pj (initUploadState t0 false) (progressTrace ticks))
          endT).timedOut = true ∧
      (observeAt (runTrace pj (initUploadState t0 false) (progressTrace ticks))
          endT).xhrAborted = true ∧
      (observeAt (runTrace pj (initUploadState t0 false) (progressTrace ticks))
          endT).defer = some (.failure (.plainError "Timeout"))) := by
  have hrun : runTrace pj (initUploadState t0 false) (progressTrace ticks)
      = runningState (lastTickTime t0 ticks) (lastTickLoaded 0 ticks)
          (lastTickTotal 0 ticks) :=
    runTrace_progress pj ticks t0 0 0 h
  refine ⟨rfl, hrun, rfl, ?_, ?_⟩
  · intro endT hlt
    unfold observeAt
    rw [hrun, fireTimerIfDue_not_due _ _ _ rfl (by omega)]
    exact ⟨rfl, rfl⟩
  · intro endT hge
    unfold observeAt
    rw [hrun, fireTimerIfDue_due _ _ _ rfl (by omega)]
    exact ⟨rfl, rfl, rfl⟩

/-- C5 witness: ticks at 29 s and 58 s; observation just before 88 s sees
no timeout, observation at 88 s (30 s of silence after the 58 s tick)
sees the timeout settlement. -/
theorem c5_stall_timeout_witness :
    (observeAt (runTrace sampleParseJson (initUploadState 0 false)
        (progressTrace [(29000, 10, 100), (58000, 20, 100)])) 87999).timedOut
      = false ∧
    (observeAt (runTrace sampleParseJson (initUploadState 0 false)
        (progressTrace [(29000, 10, 100), (58000, 20, 100)])) 88000).defer
      = some (.failure (.plainError "Timeout")) := by
  have h := c5_stall_timeout sampleParseJson 0 [(29000, 10, 100), (58000, 20, 100)]
    (by decide)
  exact ⟨(h.2.2.2.1 87999 (by decide)).1, (h.2.2.2.2 88000 (by decide)).2.2⟩

/-- C10: confirmed — with a caller-supplied `AbortController` whose signal
is already aborted when `uploadContent` is called, the upload proceeds:
the synchronous body still sends the payload and still pushes the handle
(the effect sequence does not consult the signal), the abort listeners —
attached only after the signal fired — never run, so firing the signal
again changes nothing, a `cancelUpload` call leaves the state exactly as
it was (no `AbortError` rejection, handle still registered), and the
handle stays registered until the transport itself settles, at which
point the future settles with the transport's classified outcome and the
registry entry is removed. -/
theorem c10_preaborted_signal (pj : String → Option Json)
    (t0 t1 t2 status : Nat) (statusText responseText : String)
    (inc : Bool) (fn : Option String) (ua : Bool) (tok : Option String)
    (h1 : t1 < t0 + 30000) (h2 : t2 < t0 + 30000) :
    SyncEffect.xhrSend ∈ uploadContentStrategyEffects true inc fn ua tok ∧
    SyncEffect.pushUpload ∈ uploadContentSyncEffects true inc fn ua tok ∧
    fireAbortSignal (initUploadState t0 true) = initUploadState t0 true ∧
    step pj (initUploadState t0 true) (.cancel t1) = initUploadState t0 true ∧
    (step pj (initUploadState t0 true)
        (.done t2 status statusText responseText)).defer
      = some (xhrDone pj status statusText responseText) ∧
    (step pj (initUploadState t0 true)
        (.done t2 status statusText responseText)).regCount = 0 := by
  have hfa : fireAbortSignal (initUploadState t0 true) = initUploadState t0 true := rfl
  have hf1 : fireTimerIfDue (initUploadState t0 true) t1 = initUploadState t0 true :=
    fireTimerIfDue_not_due _ _ _ rfl (by omega)
  have hf2 : fireTimerIfDue (initUploadState t0 true) t2 = initUploadState t0 true :=
    fireTimerIfDue_not_due _ _ _ rfl (by omega)
  refine ⟨?_, ?_, hfa, ?_, ?_, ?_⟩
  · simp [uploadContentStrategyEffects]
  · simp [uploadContentSyncEffects, uploadContentStrategyEffects]
  · show (cancelUpload (fireTimerIfDue (initUploadState t0 true) t1)).2 = _
    rw [hf1, cancelUpload_found _ (by exact Nat.one_ne_zero)]
    exact hfa
  · show (onXhrDone pj (fireTimerIfDue (initUploadState t0 true) t2)
        status statusText responseText).defer = _
    rw [hf2]
    exact settleWith_defer_pending _ _ rfl
  · show (onXhrDone pj (fireTimerIfDue (initUploadState t0 true) t2)
        status statusText responseText).regCount = 0
    rw [hf2]
    rfl

/-- C10 witness: pre-aborted controller at concrete times. -/
theorem c10_preaborted_signal_witness :
    step sampleParseJson (initUploadState 0 true) (.cancel 1)
      = initUploadState 0 true ∧
    (step sampleParseJson (initUploadState 0 true)
        (.done 2 200 "OK" sampleBody)).regCount = 0 := by
  have h := c10_preaborted_signal sampleParseJson 0 1 2 200 "OK" sampleBody
    true none false none (by decide) (by decide)
  exact ⟨h.2.2.2.1, h.2.2.2.2.2⟩
